import Mathlib

/-!
Verification of the statistics computation-and-aggregation pipeline of
`org_analysis` (`src/org_analysis/hercules_statistics.py`), as a shallow
embedding in Lean 4.

External effects (filesystem, subprocesses, artifact headers) are modelled
as explicit oracles passed to each function:

* `run : List String → RunResult` — the result of `subprocess.run` on an
  analysis command line (`RunResult.ok` for exit status 0,
  `RunResult.calledProcessError` for a non-zero exit status, i.e. the
  `subprocess.CalledProcessError` the code catches, and
  `RunResult.fileNotFound` for "the executable could not start", i.e. the
  `FileNotFoundError` the code does not catch);
* `crun : CombineInv → Bool` — success of a `hercules combine` subprocess;
* `dirSize : String → Nat` — `dir_size` (best-effort, never raises);
* `isDir`, `abspath` — `os.path.isdir` / `os.path.abspath`;
* `readHeader : String → Except String Int` — `labours.ProtobufReader`'s
  `read` + `get_header` start timestamp, `Except.error` when reading or
  parsing the artifact raises;
* the set of existing files is carried explicitly as a `List String`.

Python exceptions that escape a function are modelled as `Except.error`.
-/

namespace OrgAnalysis

/-- Outcome of one `subprocess.run` call on an analysis command. -/
inductive RunResult where
  | ok
  | calledProcessError
  | fileNotFound
deriving DecidableEq, Repr

/-- `ReportStat` named tuple of `hercules_statistics.py` (the `duration`
field is wall-clock time; it is irrelevant to every property here and is
modelled as `0`). -/
structure ReportStat where
  repo_size : Nat
  duration : Nat
  err : String
  repository : String
deriving DecidableEq, Repr

/-- `os.path.join` for one component (all paths the code joins are
relative components under an absolute prefix). -/
def joinPath (a b : String) : String := a ++ "/" ++ b

/-- Python's `s.split("/")` on the underlying character list (structural
recursion, so that concrete instances evaluate inside the kernel):
accumulate the current field and start a new one at each `'/'`. -/
def splitSlashAux : List Char → List Char → List (List Char)
  | [], acc => [acc.reverse]
  | c :: rest, acc =>
    if c = '/' then acc.reverse :: splitSlashAux rest []
    else splitSlashAux rest (c :: acc)

/-- Python's `url.split("/")`. -/
def splitSlash (s : String) : List String :=
  (splitSlashAux s.data []).map (fun l => String.mk l)

/-- `"/".join` of a list of path components, as `os.path.join` produces
for relative components. -/
def joinSlash : List String → String
  | [] => ""
  | [s] => s
  | s :: rest => s ++ "/" ++ joinSlash rest

/-- `repo_url.split("/")[-2:]` joined with `/`: the `<owner>/<name>`
suffix that `repository_statistics` builds with
`os.path.join(output_dir, *repo_url.split("/")[-2:])`. -/
def lastTwoOfUrl (url : String) : String :=
  let parts := splitSlash url
  joinSlash (parts.drop (parts.length - 2))

/-- The destination path `output_dir/<owner>/<name>/statistics.pb` of
`repository_statistics`. -/
def statLocOf (output_dir repo_url : String) : String :=
  joinPath (joinPath output_dir (lastTwoOfUrl repo_url)) "statistics.pb"

/-- The analysis command line built by `repository_statistics`
(lines 95–109 of `hercules_statistics.py`), in the exact order the code
appends the flags, with the repository location last. -/
def analysisCmd (hercules_exec repo_loc : String) : List String :=
  [hercules_exec, "--pb", "--burndown", "--burndown-people", "--devs",
   "--couples", "--hibernation-distance=1000", "--skip-blacklist", repo_loc]

/-- Effect of `open(p, "wb")`: the file at `p` exists afterwards
(created or truncated). -/
def insertFile (p : String) (fs : List String) : List String :=
  if fs.contains p then fs else p :: fs

/-- The `err` f-string of the size-limit branch (line 86):
`f"Repository {repo_loc} is too big: {repo_size} bytes > {size_limit} - skipping"`. -/
def tooBigErr (repo_loc : String) (repo_size : Nat) (size_limit : Int) : String :=
  s!"Repository {repo_loc} is too big: {repo_size} bytes > {size_limit} - skipping"

/-- The `err` f-string of the fallback-failure branch (lines 125–126):
`f"Repository {repo_loc} failed with exception {e} at step of calculating
statistics"` (the exception text is summarised by its class name, which
is all the claims depend on: the string is non-empty). -/
def failErr (repo_loc : String) : String :=
  s!"Repository {repo_loc} failed with exception CalledProcessError at step of calculating statistics"

/-- Result of one `repository_statistics` call that returned normally:
the returned `(ReportStat, path)` pair, plus the observable effects —
the set of files existing afterwards and the list of analysis command
lines passed to `subprocess.run`, in order. -/
structure RSResult where
  stat : ReportStat
  path : Option String
  files : List String
  invocations : List (List String)
deriving DecidableEq, Repr

/-- Shallow embedding of `repository_statistics`
(`hercules_statistics.py` lines 49–133).  `Except.error` models an
exception escaping the function (the two `ValueError`s it raises, and
any `FileNotFoundError` from `subprocess.run`, which the code does not
catch — it only catches `subprocess.CalledProcessError`). -/
def repository_statistics (run : List String → RunResult)
    (dirSize : String → Nat) (isDir : String → Bool) (abspath : String → String)
    (files : List String) (repo_url repo_loc output_dir hercules_exec : String)
    (size_limit : Int) (force : Bool) : Except String RSResult :=
  if isDir repo_loc = false ∨ abspath repo_loc ≠ repo_loc then
    .error (s!"Absolute path expected, got {repo_loc}")
  else if abspath output_dir ≠ output_dir then
    .error (s!"Absolute path expected, got {output_dir}")
  else
    let stat_loc := statLocOf output_dir repo_url
    let repo_size := dirSize repo_loc
    if files.contains stat_loc ∧ force = false then
      .ok ⟨⟨repo_size, 0, "", repo_loc⟩, some stat_loc, files, []⟩
    else if (repo_size : Int) > size_limit ∧ size_limit > 0 then
      .ok ⟨⟨repo_size, 0, tooBigErr repo_loc repo_size size_limit, repo_loc⟩,
           none, files, []⟩
    else
      let cmd := analysisCmd hercules_exec repo_loc
      let files1 := insertFile stat_loc files
      match run cmd with
      | .ok => .ok ⟨⟨repo_size, 0, "", repo_loc⟩, some stat_loc, files1, [cmd]⟩
      | .fileNotFound => .error "FileNotFoundError"
      | .calledProcessError =>
        let cmd2 := cmd ++ ["--first-parent"]
        match run cmd2 with
        | .ok => .ok ⟨⟨repo_size, 0, "", repo_loc⟩, some stat_loc, files1, [cmd, cmd2]⟩
        | .fileNotFound => .error "FileNotFoundError"
        | .calledProcessError =>
          .ok ⟨⟨repo_size, 0, failErr repo_loc, repo_loc⟩, none, files1, [cmd, cmd2]⟩

/-- Shallow embedding of `slice_max_n` (`hercules_statistics.py` lines
136–145): `zip(range(0, size, n_elem), range(n_elem, size + n_elem,
n_elem))`.  `pyRange a b step` is Python's `range(a, b, step)` for a
positive step. -/
def pyRange (a b step : Nat) : List Nat :=
  List.range' a ((b - a + step - 1) / step) step

/-- `slice_max_n(size, n_elem)`: the `(start, end)` index pairs of the
consecutive batches of at most `n_elem` elements. -/
def slice_max_n (size n_elem : Nat) : List (Nat × Nat) :=
  (pyRange 0 size n_elem).zip (pyRange n_elem (size + n_elem) n_elem)

/-- Shallow embedding of `starts_with_zero_timestamp`
(`hercules_statistics.py` lines 148–153).  `readHeader` models
`labours.ProtobufReader().read(stat_loc)` followed by `get_header()`:
it yields the start timestamp, or `Except.error` when reading or
parsing raises — the function has no handler, so that error escapes.
`datetime.utcfromtimestamp(start).strftime("%Y-%m-%d") == "1970-01-01"`
holds exactly when the timestamp falls inside the first UTC day. -/
def starts_with_zero_timestamp (readHeader : String → Except String Int)
    (stat_loc : String) : Except String Bool :=
  match readHeader stat_loc with
  | .error e => .error e
  | .ok start => .ok (decide (0 ≤ start ∧ start < 86400))

/-- The list comprehension `[loc for _, loc in filenames if loc]` of
`merge_statistics` (line 168): keep the path of each result that has a
truthy (present and non-empty) path. -/
def locationsOf (filenames : List (ReportStat × Option String)) : List String :=
  filenames.filterMap (fun p => p.2.bind (fun l => if l = "" then none else some l))

/-- The validation loop of `merge_statistics` (lines 170–175): keep the
locations whose `starts_with_zero_timestamp` is `false`; a location on
which the validator raises makes the whole loop raise. -/
def filterValid (readHeader : String → Except String Int) :
    List String → Except String (List String)
  | [] => .ok []
  | loc :: rest =>
    match starts_with_zero_timestamp readHeader loc with
    | .error e => .error e
    | .ok b =>
      match filterValid readHeader rest with
      | .error e => .error e
      | .ok tail => .ok (if b then tail else loc :: tail)

/-- One `hercules combine` invocation: the executable, the ordered list
of input artifact paths appended after the literal `combine` argument,
and the file the subprocess's stdout is redirected to. -/
structure CombineInv where
  exec : String
  inputs : List String
  output : String
deriving DecidableEq, Repr

/-- Shallow embedding of `merge_statistics_` (`hercules_statistics.py`
lines 203–230) applied to a list of locations, with the output path
already resolved: build `[hercules_exec, "combine"] + locations`, run
it with stdout redirected to `stat_loc`, return `stat_loc` on success
and `None` when the subprocess exits non-zero (`crun` is the success
oracle for combine subprocesses).  The invocation made is returned
alongside. -/
def mergeStatisticsStep (crun : CombineInv → Bool) (locations : List String)
    (stat_loc hercules_exec : String) : Option String × CombineInv :=
  let inv : CombineInv := ⟨hercules_exec, locations, stat_loc⟩
  ((if crun inv then some stat_loc else none), inv)

/-- The temporary file `os.path.join(tmp_dir, f"{file_cnter}.pb")` used
for intermediate merges.  (`merge_statistics_` joins this path with
`tmp_dir` once more, which is the identity because the path is already
absolute — `tempfile.TemporaryDirectory` yields an absolute path and
`os.path.join` returns an absolute second argument unchanged.) -/
def tmpName (tmp_dir : String) (cnt : Nat) : String :=
  tmp_dir ++ "/" ++ Nat.repr cnt ++ ".pb"

/-- The inner `for start, end in slice_max_n(...)` loop of one level of
the hierarchical merge (lines 184–191): merge each slice
`file_stack[start:end]` into the next temporary file, returning the
`new_stack` of per-batch results, the combine invocations made, and the
advanced `file_cnter`. -/
def runBatches (crun : CombineInv → Bool) (stack : List String)
    (tmp_dir hercules_exec : String) :
    List (Nat × Nat) → Nat → List (Option String) × List CombineInv × Nat
  | [], cnt => ([], [], cnt)
  | (s, e) :: rest, cnt =>
    let batch := (stack.drop s).take (e - s)
    let mr := mergeStatisticsStep crun batch (tmpName tmp_dir cnt) hercules_exec
    let tail := runBatches crun stack tmp_dir hercules_exec rest (cnt + 1)
    (mr.1 :: tail.1, mr.2 :: tail.2.1, tail.2.2)

/-- The survivor filter between levels (line 192):
`[loc for loc in new_stack if loc and os.path.getsize(loc) > 0]`. -/
def survivors (sizeOf : String → Nat) (results : List (Option String)) : List String :=
  (results.filterMap id).filter (fun loc => loc != "" && decide (0 < sizeOf loc))

/-- The `while len(file_stack) > n_samples` loop of `merge_statistics`
(lines 183–197), ending with the final combine into `output_filepath`.
The Python loop can fail to terminate (e.g. `n_samples = 1` with two or
more surviving artifacts), so the embedding is fuel-indexed: the first
component is `none` when the fuel ran out with the loop still running,
`some r` when the loop exited and the final `merge_statistics_` call
returned `r`.  The second component is the list of combine invocations
made, in order. -/
def mergeLoop (crun : CombineInv → Bool) (sizeOf : String → Nat)
    (tmp_dir hercules_exec output_filepath : String) (n : Nat) :
    Nat → List String → Nat → Option (Option String) × List CombineInv
  | 0, stack, _ =>
    if stack.length > n then (none, [])
    else
      let mr := mergeStatisticsStep crun stack output_filepath hercules_exec
      (some mr.1, [mr.2])
  | fuel + 1, stack, cnt =>
    if stack.length > n then
      let rb := runBatches crun stack tmp_dir hercules_exec (slice_max_n stack.length n) cnt
      let rest := mergeLoop crun sizeOf tmp_dir hercules_exec output_filepath n
        fuel (survivors sizeOf rb.1) rb.2.2
      (rest.1, rb.2.1 ++ rest.2)
    else
      let mr := mergeStatisticsStep crun stack output_filepath hercules_exec
      (some mr.1, [mr.2])

/-- Shallow embedding of `merge_statistics` (`hercules_statistics.py`
lines 156–200).  `Except.error` models an exception escaping the
function (only the unguarded validator can raise).  On normal return
the result is the fuel-indexed `mergeLoop` outcome together with every
combine invocation made; with `n_samples ≤ 0` the hierarchical loop is
skipped and a single combine over all filtered locations is issued. -/
def merge_statistics (crun : CombineInv → Bool) (sizeOf : String → Nat)
    (readHeader : String → Except String Int)
    (filenames : List (ReportStat × Option String))
    (output_filepath hercules_exec tmp_dir : String) (n_samples : Int)
    (fuel : Nat) : Except String (Option (Option String) × List CombineInv) :=
  match filterValid readHeader (locationsOf filenames) with
  | .error e => .error e
  | .ok filtered =>
    if n_samples > 0 then
      .ok (mergeLoop crun sizeOf tmp_dir hercules_exec output_filepath
        n_samples.toNat fuel filtered 0)
    else
      let mr := mergeStatisticsStep crun filtered output_filepath hercules_exec
      .ok (some mr.1, [mr.2])

/-- Decidable observation used to state the corruption-filtering
invariant: in a normally returned `merge_statistics` result, no combine
invocation has `bad` among its input artifact paths. -/
def invocationsAvoid (bad : String) :
    Except String (Option (Option String) × List CombineInv) → Bool
  | .error _ => true
  | .ok (_, invs) => invs.all (fun inv => decide (bad ∉ inv.inputs))

/-! Helper lemmas shared by several claims. -/

theorem failErr_ne_empty (l : String) : failErr l ≠ "" := by
  intro h
  have h2 := congrArg String.length h
  simp [failErr, String.length_append] at h2
  have e1 : (toString "Repository ").length = 11 := rfl
  omega

theorem tooBigErr_ne_empty (l : String) (n : Nat) (z : Int) : tooBigErr l n z ≠ "" := by
  intro h
  have h2 := congrArg String.length h
  simp [tooBigErr, String.length_append] at h2
  have e1 : (toString "Repository ").length = 11 := rfl
  omega

theorem insertFile_mem_self (p : String) (fs : List String) : p ∈ insertFile p fs := by
  simp only [insertFile]
  split
  · next h => simpa using h
  · exact List.mem_cons_self p fs

/-! Claim theorems. -/

/-- C7: for every WorkItem with `force = false` whose artifact already
exists at the expected destination `output_dir/<owner>/<name>/statistics.pb`,
`repository_statistics` returns that existing path with an empty error
and without invoking the Command Runner; and running it a second time
on the resulting file state (which the first call left unchanged)
returns the very same outcome — same artifact path, empty error, no
Command Runner invocation (idempotent reuse). -/
theorem repository_statistics_reuse_idempotent
    (run : List String → RunResult) (dirSize : String → Nat)
    (isDir : String → Bool) (abspath : String → String)
    (files : List String) (repo_url repo_loc output_dir hexec : String)
    (size_limit : Int)
    (hdir : isDir repo_loc = true) (habs : abspath repo_loc = repo_loc)
    (habso : abspath output_dir = output_dir)
    (hexists : statLocOf output_dir repo_url ∈ files) :
    repository_statistics run dirSize isDir abspath files repo_url repo_loc
        output_dir hexec size_limit false =
      .ok ⟨⟨dirSize repo_loc, 0, "", repo_loc⟩,
           some (statLocOf output_dir repo_url), files, []⟩ ∧
    repository_statistics run dirSize isDir abspath
        (RSResult.files ⟨⟨dirSize repo_loc, 0, "", repo_loc⟩,
           some (statLocOf output_dir repo_url), files, []⟩)
        repo_url repo_loc output_dir hexec size_limit false =
      .ok ⟨⟨dirSize repo_loc, 0, "", repo_loc⟩,
           some (statLocOf output_dir repo_url), files, []⟩ := by
  have h : repository_statistics run dirSize isDir abspath files repo_url repo_loc
      output_dir hexec size_limit false =
      .ok ⟨⟨dirSize repo_loc, 0, "", repo_loc⟩,
           some (statLocOf output_dir repo_url), files, []⟩ := by
    simp [repository_statistics, hdir, habs, habso, hexists]
  exact ⟨h, h⟩

/-- Witness for C7 at a concrete item whose artifact already exists. -/
theorem repository_statistics_reuse_idempotent_witness :
    repository_statistics (fun _ => RunResult.ok) (fun _ => 100) (fun _ => true)
        id ["/o/org/name/statistics.pb"] "https://github.com/org/name" "/r" "/o"
        "h" 1000 false =
      .ok ⟨⟨100, 0, "", "/r"⟩, some "/o/org/name/statistics.pb",
           ["/o/org/name/statistics.pb"], []⟩ ∧
    repository_statistics (fun _ => RunResult.ok) (fun _ => 100) (fun _ => true)
        id (RSResult.files ⟨⟨100, 0, "", "/r"⟩, some "/o/org/name/statistics.pb",
             ["/o/org/name/statistics.pb"], []⟩)
        "https://github.com/org/name" "/r" "/o" "h" 1000 false =
      .ok ⟨⟨100, 0, "", "/r"⟩, some "/o/org/name/statistics.pb",
           ["/o/org/name/statistics.pb"], []⟩ :=
  repository_statistics_reuse_idempotent (fun _ => RunResult.ok) (fun _ => 100)
    (fun _ => true) id ["/o/org/name/statistics.pb"] "https://github.com/org/name"
    "/r" "/o" "h" 1000 rfl rfl rfl (by decide)

/-- C6 counterexample: the claim "for every WorkItem with
`repo_size > size_limit > 0` the outcome has no artifact path and a
non-empty error" is false as stated, because the already-exists check
precedes the size check: at this concrete item the measured size 2000
exceeds the limit 1000, yet `repository_statistics` (with `force =
false` and an existing artifact) returns the existing path with an
empty error. -/
theorem size_check_shadowed_by_existing_artifact :
    repository_statistics (fun _ => RunResult.ok) (fun _ => 2000) (fun _ => true)
        id ["/o/org/name/statistics.pb"] "https://github.com/org/name" "/r" "/o"
        "h" 1000 false =
      .ok ⟨⟨2000, 0, "", "/r"⟩, some "/o/org/name/statistics.pb",
           ["/o/org/name/statistics.pb"], []⟩ ∧
    ((2000 : Int) > 1000 ∧ (1000 : Int) > 0) :=
  ⟨rfl, by decide⟩

/-- C6 (amended): for every WorkItem whose measured content size exceeds
a positive configured limit AND which does not take the already-exists
shortcut (no artifact at the destination with `force = false`),
`repository_statistics` returns an outcome with no artifact path and a
populated (non-empty) error string, and the Command Runner is never
invoked for that item. -/
theorem repository_statistics_size_limit_skips
    (run : List String → RunResult) (dirSize : String → Nat)
    (isDir : String → Bool) (abspath : String → String)
    (files : List String) (repo_url repo_loc output_dir hexec : String)
    (size_limit : Int) (force : Bool)
    (hdir : isDir repo_loc = true) (habs : abspath repo_loc = repo_loc)
    (habso : abspath output_dir = output_dir)
    (hnoskip : ¬(statLocOf output_dir repo_url ∈ files ∧ force = false))
    (hsize : (dirSize repo_loc : Int) > size_limit) (hpos : size_limit > 0) :
    repository_statistics run dirSize isDir abspath files repo_url repo_loc
        output_dir hexec size_limit force =
      .ok ⟨⟨dirSize repo_loc, 0, tooBigErr repo_loc (dirSize repo_loc) size_limit,
            repo_loc⟩, none, files, []⟩ ∧
    tooBigErr repo_loc (dirSize repo_loc) size_limit ≠ "" := by
  constructor
  · simp [repository_statistics, hdir, habs, habso, hnoskip, hsize, hpos]
  · exact tooBigErr_ne_empty repo_loc (dirSize repo_loc) size_limit

/-- Witness for C6 (amended) at a concrete oversized item. -/
theorem repository_statistics_size_limit_skips_witness :
    repository_statistics (fun _ => RunResult.ok) (fun _ => 2000) (fun _ => true)
        id [] "https://github.com/org/name" "/r" "/o" "h" 1000 false =
      .ok ⟨⟨2000, 0, tooBigErr "/r" 2000 1000, "/r"⟩, none, [], []⟩ ∧
    tooBigErr "/r" 2000 1000 ≠ "" :=
  repository_statistics_size_limit_skips (fun _ => RunResult.ok) (fun _ => 2000)
    (fun _ => true) id [] "https://github.com/org/name" "/r" "/o" "h" 1000 false
    rfl rfl rfl (by decide) (by decide) (by decide)

/-- C9 counterexample: the claim "size-exceeded outcomes have an empty
error description" is false: at this concrete oversized item (size 2000,
limit 1000, no existing artifact) the returned outcome carries the
non-empty "too big" error string. -/
theorem size_exceeded_outcome_has_error :
    repository_statistics (fun _ => RunResult.ok) (fun _ => 2000) (fun _ => true)
        id [] "https://github.com/org/name" "/r" "/o" "h" 1000 true =
      .ok ⟨⟨2000, 0, tooBigErr "/r" 2000 1000, "/r"⟩, none, [], []⟩ ∧
    tooBigErr "/r" 2000 1000 ≠ "" :=
  ⟨rfl, by decide⟩

/-- C9 (amended): of the two skip outcomes of `repository_statistics`,
only already-exists-and-not-forced is success-like: it has an empty
error and carries the existing artifact path; the size-exceeded outcome
instead has a populated (non-empty) error and no artifact path.  In
both cases the Command Runner is not invoked. -/
theorem skip_outcomes_error_contract
    (run : List String → RunResult) (dirSize : String → Nat)
    (isDir : String → Bool) (abspath : String → String)
    (files : List String) (repo_url repo_loc output_dir hexec : String)
    (size_limit : Int) (force : Bool)
    (hdir : isDir repo_loc = true) (habs : abspath repo_loc = repo_loc)
    (habso : abspath output_dir = output_dir) :
    (statLocOf output_dir repo_url ∈ files → force = false →
      repository_statistics run dirSize isDir abspath files repo_url repo_loc
          output_dir hexec size_limit force =
        .ok ⟨⟨dirSize repo_loc, 0, "", repo_loc⟩,
             some (statLocOf output_dir repo_url), files, []⟩) ∧
    (¬(statLocOf output_dir repo_url ∈ files ∧ force = false) →
      (dirSize repo_loc : Int) > size_limit → size_limit > 0 →
      repository_statistics run dirSize isDir abspath files repo_url repo_loc
          output_dir hexec size_limit force =
        .ok ⟨⟨dirSize repo_loc, 0,
              tooBigErr repo_loc (dirSize repo_loc) size_limit, repo_loc⟩,
             none, files, []⟩ ∧
      tooBigErr repo_loc (dirSize repo_loc) size_limit ≠ "") := by
  constructor
  · intro hexists hforce
    subst hforce
    simp [repository_statistics, hdir, habs, habso, hexists]
  · intro hnoskip hsize hpos
    refine ⟨?_, tooBigErr_ne_empty repo_loc (dirSize repo_loc) size_limit⟩
    simp [repository_statistics, hdir, habs, habso, hnoskip, hsize, hpos]

/-- Witness for C9 (amended) at a concrete item whose artifact already
exists (the size-exceeded branch of the conjunction is vacuous there). -/
theorem skip_outcomes_error_contract_witness :
    (("/o/org/name/statistics.pb" : String) ∈ ["/o/org/name/statistics.pb"] →
      false = false →
      repository_statistics (fun _ => RunResult.ok) (fun _ => 100) (fun _ => true)
          id ["/o/org/name/statistics.pb"] "https://github.com/org/name" "/r" "/o"
          "h" 1000 false =
        .ok ⟨⟨100, 0, "", "/r"⟩, some "/o/org/name/statistics.pb",
             ["/o/org/name/statistics.pb"], []⟩) ∧
    (¬(("/o/org/name/statistics.pb" : String) ∈ ["/o/org/name/statistics.pb"] ∧
        false = false) →
      ((100 : Nat) : Int) > 1000 → (1000 : Int) > 0 →
      repository_statistics (fun _ => RunResult.ok) (fun _ => 100) (fun _ => true)
          id ["/o/org/name/statistics.pb"] "https://github.com/org/name" "/r" "/o"
          "h" 1000 false =
        .ok ⟨⟨100, 0, tooBigErr "/r" 100 1000, "/r"⟩, none,
             ["/o/org/name/statistics.pb"], []⟩ ∧
      tooBigErr "/r" 100 1000 ≠ "") :=
  skip_outcomes_error_contract (fun _ => RunResult.ok) (fun _ => 100)
    (fun _ => true) id ["/o/org/name/statistics.pb"] "https://github.com/org/name"
    "/r" "/o" "h" 1000 false rfl rfl rfl

/-- C3 counterexample: the claim that a could-not-start failure
(executable not found) is recovered at the item level is false: the
code only catches `subprocess.CalledProcessError`, so at this concrete
item where `subprocess.run` raises `FileNotFoundError` the exception
escapes `repository_statistics` instead of producing a Failed outcome
(no `ReportStat` is returned at all). -/
theorem executable_not_found_propagates :
    repository_statistics (fun _ => RunResult.fileNotFound) (fun _ => 100)
        (fun _ => true) id [] "https://github.com/org/name" "/r" "/o" "h" 0 true =
      .error "FileNotFoundError" :=
  rfl

/-- C3 (amended): for every WorkItem that reaches the analysis step, if
the external invocation fails with a non-zero exit status the processor
recovers at the item level via the one-shot fallback, and if the
fallback also fails with a non-zero exit status the item terminates in
a Failed outcome (non-empty error, no artifact path) rather than
raising, so the batch continues; but a could-not-start failure
(executable not found) is NOT caught and propagates as an exception. -/
theorem command_failure_fallback_contract
    (run : List String → RunResult) (dirSize : String → Nat)
    (isDir : String → Bool) (abspath : String → String)
    (files : List String) (repo_url repo_loc output_dir hexec : String)
    (size_limit : Int) (force : Bool)
    (hdir : isDir repo_loc = true) (habs : abspath repo_loc = repo_loc)
    (habso : abspath output_dir = output_dir)
    (hnoskip : ¬(statLocOf output_dir repo_url ∈ files ∧ force = false))
    (hnosize : ¬((dirSize repo_loc : Int) > size_limit ∧ size_limit > 0)) :
    (run (analysisCmd hexec repo_loc) = RunResult.calledProcessError →
      run (analysisCmd hexec repo_loc ++ ["--first-parent"]) =
        RunResult.calledProcessError →
      repository_statistics run dirSize isDir abspath files repo_url repo_loc
          output_dir hexec size_limit force =
        .ok ⟨⟨dirSize repo_loc, 0, failErr repo_loc, repo_loc⟩, none,
             insertFile (statLocOf output_dir repo_url) files,
             [analysisCmd hexec repo_loc,
              analysisCmd hexec repo_loc ++ ["--first-parent"]]⟩ ∧
      failErr repo_loc ≠ "") ∧
    (run (analysisCmd hexec repo_loc) = RunResult.fileNotFound →
      repository_statistics run dirSize isDir abspath files repo_url repo_loc
          output_dir hexec size_limit force = .error "FileNotFoundError") := by
  constructor
  · intro hrun1 hrun2
    refine ⟨?_, failErr_ne_empty repo_loc⟩
    simp [repository_statistics, hdir, habs, habso, hnoskip, hnosize, hrun1, hrun2]
  · intro hrun1
    simp [repository_statistics, hdir, habs, habso, hnoskip, hnosize, hrun1]

/-- Witness for C3 (amended) at a concrete item whose analysis command
exits non-zero on both attempts. -/
theorem command_failure_fallback_contract_witness :
    ((fun (_ : List String) => RunResult.calledProcessError)
        (analysisCmd "h" "/r") = RunResult.calledProcessError →
      (fun (_ : List String) => RunResult.calledProcessError)
        (analysisCmd "h" "/r" ++ ["--first-parent"]) =
        RunResult.calledProcessError →
      repository_statistics (fun _ => RunResult.calledProcessError) (fun _ => 100)
          (fun _ => true) id [] "https://github.com/org/name" "/r" "/o" "h" 0 true =
        .ok ⟨⟨100, 0, failErr "/r", "/r"⟩, none, ["/o/org/name/statistics.pb"],
             [analysisCmd "h" "/r", analysisCmd "h" "/r" ++ ["--first-parent"]]⟩ ∧
      failErr "/r" ≠ "") ∧
    ((fun (_ : List String) => RunResult.calledProcessError)
        (analysisCmd "h" "/r") = RunResult.fileNotFound →
      repository_statistics (fun _ => RunResult.calledProcessError) (fun _ => 100)
          (fun _ => true) id [] "https://github.com/org/name" "/r" "/o" "h" 0 true =
        .error "FileNotFoundError") :=
  command_failure_fallback_contract (fun _ => RunResult.calledProcessError)
    (fun _ => 100) (fun _ => true) id [] "https://github.com/org/name" "/r" "/o"
    "h" 0 true rfl rfl rfl (by decide) (by decide)

/-- C8: whenever the primary analysis invocation of
`repository_statistics` fails with the (caught) non-zero exit status,
the processor performs exactly one fallback invocation — the same
command line with the single additional `--first-parent` flag appended
— and nothing else; if the fallback succeeds the outcome is Done
(artifact path present, empty error, indistinguishable from primary
success), and if the fallback also exits non-zero the outcome is Failed
with a non-empty description of the second failure.  (The uncaught
could-not-start case is excluded by hypothesis; it is claim C3's
subject.) -/
theorem one_shot_fallback
    (run : List String → RunResult) (dirSize : String → Nat)
    (isDir : String → Bool) (abspath : String → String)
    (files : List String) (repo_url repo_loc output_dir hexec : String)
    (size_limit : Int) (force : Bool)
    (hdir : isDir repo_loc = true) (habs : abspath repo_loc = repo_loc)
    (habso : abspath output_dir = output_dir)
    (hnoskip : ¬(statLocOf output_dir repo_url ∈ files ∧ force = false))
    (hnosize : ¬((dirSize repo_loc : Int) > size_limit ∧ size_limit > 0))
    (hrun1 : run (analysisCmd hexec repo_loc) = RunResult.calledProcessError)
    (hrun2ne : run (analysisCmd hexec repo_loc ++ ["--first-parent"]) ≠
      RunResult.fileNotFound) :
    repository_statistics run dirSize isDir abspath files repo_url repo_loc
        output_dir hexec size_limit force =
      .ok ⟨⟨dirSize repo_loc, 0,
            (match run (analysisCmd hexec repo_loc ++ ["--first-parent"]) with
             | RunResult.ok => ""
             | _ => failErr repo_loc),
            repo_loc⟩,
           (match run (analysisCmd hexec repo_loc ++ ["--first-parent"]) with
            | RunResult.ok => some (statLocOf output_dir repo_url)
            | _ => none),
           insertFile (statLocOf output_dir repo_url) files,
           [analysisCmd hexec repo_loc,
            analysisCmd hexec repo_loc ++ ["--first-parent"]]⟩ ∧
    failErr repo_loc ≠ "" := by
  refine ⟨?_, failErr_ne_empty repo_loc⟩
  cases hrun2 : run (analysisCmd hexec repo_loc ++ ["--first-parent"]) with
  | ok =>
    simp [repository_statistics, hdir, habs, habso, hnoskip, hnosize, hrun1, hrun2]
  | calledProcessError =>
    simp [repository_statistics, hdir, habs, habso, hnoskip, hnosize, hrun1, hrun2]
  | fileNotFound => exact absurd hrun2 hrun2ne

/-- Witness for C8 at a concrete item whose primary attempt exits
non-zero and whose fallback attempt succeeds. -/
theorem one_shot_fallback_witness :
    repository_statistics
        (fun c => if c = analysisCmd "h" "/r" then RunResult.calledProcessError
                  else RunResult.ok)
        (fun _ => 100) (fun _ => true) id [] "https://github.com/org/name" "/r"
        "/o" "h" 0 true =
      .ok ⟨⟨100, 0, "", "/r"⟩, some "/o/org/name/statistics.pb",
           ["/o/org/name/statistics.pb"],
           [analysisCmd "h" "/r", analysisCmd "h" "/r" ++ ["--first-parent"]]⟩ ∧
    failErr "/r" ≠ "" :=
  one_shot_fallback
    (fun c => if c = analysisCmd "h" "/r" then RunResult.calledProcessError
              else RunResult.ok)
    (fun _ => 100) (fun _ => true) id [] "https://github.com/org/name" "/r" "/o"
    "h" 0 true rfl rfl rfl (by decide) (by decide) (by decide) (by decide)

/-- C10 (implicit): when both the primary and the fallback invocation
fail with non-zero exit status, `repository_statistics` still leaves a
file at the destination path (the output file was created/truncated by
`open(stat_loc, "wb")` before each attempt), so a subsequent call for
the same item with `force = false` takes the already-exists branch and
returns that leftover path with an empty error, invoking no external
command. -/
theorem leftover_artifact_reused_after_double_failure
    (run : List String → RunResult) (dirSize : String → Nat)
    (isDir : String → Bool) (abspath : String → String)
    (files : List String) (repo_url repo_loc output_dir hexec : String)
    (size_limit : Int) (force : Bool)
    (hdir : isDir repo_loc = true) (habs : abspath repo_loc = repo_loc)
    (habso : abspath output_dir = output_dir)
    (hnoskip : ¬(statLocOf output_dir repo_url ∈ files ∧ force = false))
    (hnosize : ¬((dirSize repo_loc : Int) > size_limit ∧ size_limit > 0))
    (hrun1 : run (analysisCmd hexec repo_loc) = RunResult.calledProcessError)
    (hrun2 : run (analysisCmd hexec repo_loc ++ ["--first-parent"]) =
      RunResult.calledProcessError) :
    repository_statistics run dirSize isDir abspath files repo_url repo_loc
        output_dir hexec size_limit force =
      .ok ⟨⟨dirSize repo_loc, 0, failErr repo_loc, repo_loc⟩, none,
           insertFile (statLocOf output_dir repo_url) files,
           [analysisCmd hexec repo_loc,
            analysisCmd hexec repo_loc ++ ["--first-parent"]]⟩ ∧
    repository_statistics run dirSize isDir abspath
        (insertFile (statLocOf output_dir repo_url) files) repo_url repo_loc
        output_dir hexec size_limit false =
      .ok ⟨⟨dirSize repo_loc, 0, "", repo_loc⟩,
           some (statLocOf output_dir repo_url),
           insertFile (statLocOf output_dir repo_url) files, []⟩ := by
  constructor
  · simp [repository_statistics, hdir, habs, habso, hnoskip, hnosize, hrun1, hrun2]
  · have hm := insertFile_mem_self (statLocOf output_dir repo_url) files
    simp [repository_statistics, hdir, habs, habso, hm]

/-- Witness for C10 at a concrete item failing both attempts and then
being re-run with `force = false`. -/
theorem leftover_artifact_reused_after_double_failure_witness :
    repository_statistics (fun _ => RunResult.calledProcessError) (fun _ => 100)
        (fun _ => true) id [] "https://github.com/org/name" "/r" "/o" "h" 0 true =
      .ok ⟨⟨100, 0, failErr "/r", "/r"⟩, none, ["/o/org/name/statistics.pb"],
           [analysisCmd "h" "/r", analysisCmd "h" "/r" ++ ["--first-parent"]]⟩ ∧
    repository_statistics (fun _ => RunResult.calledProcessError) (fun _ => 100)
        (fun _ => true) id ["/o/org/name/statistics.pb"]
        "https://github.com/org/name" "/r" "/o" "h" 0 false =
      .ok ⟨⟨100, 0, "", "/r"⟩, some "/o/org/name/statistics.pb",
           ["/o/org/name/statistics.pb"], []⟩ :=
  leftover_artifact_reused_after_double_failure
    (fun _ => RunResult.calledProcessError) (fun _ => 100) (fun _ => true) id []
    "https://github.com/org/name" "/r" "/o" "h" 0 true rfl rfl rfl (by decide)
    (by decide) (by decide) (by decide)

/-- C1 counterexample: the claim "given zero valid artifacts
`merge_statistics` fails immediately without invoking the Command
Runner" is false: at this concrete run with an empty artifact list the
combine command is invoked (once, with zero input paths), and — the
combine subprocess succeeding — `merge_statistics` even returns the
output path rather than a no-final-artifact failure. -/
theorem merge_statistics_empty_invokes_combine :
    merge_statistics (fun _ => true) (fun _ => 1) (fun _ => .ok 0) [] "/out.pb"
        "hercules" "/tmp/m" 3 0 =
      .ok (some (some "/out.pb"), [⟨"hercules", [], "/out.pb"⟩]) ∧
    ([(⟨"hercules", [], "/out.pb"⟩ : CombineInv)].length ≠ 0) :=
  ⟨rfl, by decide⟩

/-- C1 (amended): given zero valid artifacts at entry,
`merge_statistics` invokes the combine command exactly once, with an
empty artifact-path list, writing to the requested output path; it
reports no final artifact (`None`) exactly when that single invocation
fails, and otherwise returns the output path. -/
theorem merge_statistics_empty_one_combine
    (crun : CombineInv → Bool) (sizeOf : String → Nat)
    (readHeader : String → Except String Int)
    (filenames : List (ReportStat × Option String))
    (out hexec tmp : String) (n_samples : Int) (fuel : Nat)
    (hempty : filterValid readHeader (locationsOf filenames) = .ok []) :
    merge_statistics crun sizeOf readHeader filenames out hexec tmp n_samples fuel =
      .ok (some (if crun ⟨hexec, [], out⟩ then some out else none),
           [⟨hexec, [], out⟩]) := by
  simp only [merge_statistics, hempty]
  by_cases hn : n_samples > 0
  · rw [if_pos hn]
    cases fuel <;> simp [mergeLoop, mergeStatisticsStep]
  · rw [if_neg hn]
    simp [mergeStatisticsStep]

/-- Witness for C1 (amended) at a concrete empty run whose combine
subprocess fails, yielding the no-final-artifact result. -/
theorem merge_statistics_empty_one_combine_witness :
    merge_statistics (fun _ => false) (fun _ => 1) (fun _ => .ok 0) [] "/out.pb"
        "hercules" "/tmp/m" (-1) 2 =
      .ok (some (if (fun (_ : CombineInv) => false) ⟨"hercules", [], "/out.pb"⟩
                 then some "/out.pb" else none),
           [⟨"hercules", [], "/out.pb"⟩]) :=
  merge_statistics_empty_one_combine (fun _ => false) (fun _ => 1)
    (fun _ => .ok 0) [] "/out.pb" "hercules" "/tmp/m" (-1) 2 rfl

/-- C2 counterexample: the claim that the Artifact Validator fails
closed — never propagating a read error — is false: at this concrete
artifact whose header read raises, `starts_with_zero_timestamp`
propagates the exception (it is not a total boolean-returning
function), and `merge_statistics` crashes with it instead of excluding
the artifact. -/
theorem validator_error_crashes_merge :
    starts_with_zero_timestamp (fun _ => .error "IOError") "/a.pb" =
      .error "IOError" ∧
    merge_statistics (fun _ => true) (fun _ => 1) (fun _ => .error "IOError")
        [(⟨0, 0, "", "r"⟩, some "/a.pb")] "/out.pb" "h" "/t" 3 1 =
      .error "IOError" :=
  ⟨rfl, rfl⟩

/-- C2 (amended): `starts_with_zero_timestamp` returns a boolean only
when reading and header-parsing the artifact succeed; a read error or
header-parse error on an inspected artifact is NOT treated as
"invalid" but propagates as an exception out of `merge_statistics`
(here: the error raised on the first inspected artifact aborts the
whole merge). -/
theorem validator_error_propagates
    (crun : CombineInv → Bool) (sizeOf : String → Nat)
    (readHeader : String → Except String Int)
    (filenames : List (ReportStat × Option String))
    (out hexec tmp : String) (n_samples : Int) (fuel : Nat)
    (loc : String) (rest : List String) (e : String)
    (hloc : locationsOf filenames = loc :: rest)
    (herr : readHeader loc = .error e) :
    merge_statistics crun sizeOf readHeader filenames out hexec tmp n_samples fuel =
      .error e := by
  simp only [merge_statistics, hloc]
  simp [filterValid, starts_with_zero_timestamp, herr]

/-- Witness for C2 (amended) at a concrete artifact list whose first
artifact's header read raises. -/
theorem validator_error_propagates_witness :
    merge_statistics (fun _ => true) (fun _ => 1) (fun _ => .error "boom")
        [(⟨0, 0, "", "r"⟩, some "/a.pb"), (⟨0, 0, "", "s"⟩, some "/b.pb")]
        "/out.pb" "h" "/t" 0 3 =
      .error "boom" :=
  validator_error_propagates (fun _ => true) (fun _ => 1) (fun _ => .error "boom")
    [(⟨0, 0, "", "r"⟩, some "/a.pb"), (⟨0, 0, "", "s"⟩, some "/b.pb")]
    "/out.pb" "h" "/t" 0 3 "/a.pb" ["/b.pb"] "boom" rfl rfl

/-- An artifact flagged as epoch-start by the validator is never kept
by the validation loop of `merge_statistics`. -/
theorem starts_true_not_kept (readHeader : String → Except String Int) (bad : String)
    (hbad : starts_with_zero_timestamp readHeader bad = .ok true) :
    ∀ locs res, filterValid readHeader locs = .ok res → bad ∉ res := by
  intro locs
  induction locs with
  | nil =>
    intro res h
    simp only [filterValid] at h
    cases h
    exact List.not_mem_nil bad
  | cons loc rest ih =>
    intro res h
    simp only [filterValid] at h
    cases hs : starts_with_zero_timestamp readHeader loc with
    | error e => rw [hs] at h; cases h
    | ok b =>
      rw [hs] at h
      cases ht : filterValid readHeader rest with
      | error e => rw [ht] at h; cases h
      | ok tail =>
        rw [ht] at h
        cases h
        by_cases hb : b
        · subst hb
          simpa using ih tail ht
        · have hbf : b = false := by simpa using hb
          subst hbf
          simp only [if_neg (by simp : ¬(false = true))]
          intro hmem
          rcases List.mem_cons.mp hmem with heq | hmem2
          · subst heq
            rw [hbad] at hs
            cases hs
          · exact ih tail ht hmem2

/-- Every first-level combine invocation issued by `runBatches` has its
inputs drawn from the current working stack (each batch is a slice of
it). -/
theorem runBatches_inputs_subset (crun : CombineInv → Bool) (stack : List String)
    (tmp hexec : String) :
    ∀ slices cnt inv, inv ∈ (runBatches crun stack tmp hexec slices cnt).2.1 →
      inv.inputs ⊆ stack := by
  intro slices
  induction slices with
  | nil => intro cnt inv h; simp [runBatches] at h
  | cons se rest ih =>
    intro cnt inv h
    obtain ⟨s, e⟩ := se
    simp only [runBatches, List.mem_cons] at h
    rcases h with heq | hmem
    · subst heq
      simp only [mergeStatisticsStep]
      exact fun x hx =>
        List.drop_subset s stack (List.take_subset (e - s) (stack.drop s) hx)
    · exact ih (cnt + 1) inv hmem

/-- Every present entry of `runBatches`'s result stack is one of the
freshly named temporary artifacts. -/
theorem runBatches_results_tmp (crun : CombineInv → Bool) (stack : List String)
    (tmp hexec : String) :
    ∀ slices cnt o, o ∈ (runBatches crun stack tmp hexec slices cnt).1 →
      ∀ s, o = some s → ∃ c, s = tmpName tmp c := by
  intro slices
  induction slices with
  | nil => intro cnt o h; simp [runBatches] at h
  | cons se rest ih =>
    intro cnt o h
    obtain ⟨s, e⟩ := se
    simp only [runBatches, List.mem_cons] at h
    rcases h with heq | hmem
    · subst heq
      intro s' hs'
      simp only [mergeStatisticsStep] at hs'
      split at hs'
      · exact ⟨cnt, (Option.some.injEq _ _ ▸ hs').symm ▸ rfl⟩
      · cases hs'
    · exact ih (cnt + 1) o hmem

/-- A path distinct from every temporary artifact name never survives
into the next level's working stack. -/
theorem bad_not_in_survivors (sizeOf : String → Nat) (tmp bad : String)
    (hfresh : ∀ c, tmpName tmp c ≠ bad) (results : List (Option String))
    (hres : ∀ o ∈ results, ∀ s, o = some s → ∃ c, s = tmpName tmp c) :
    bad ∉ survivors sizeOf results := by
  intro hmem
  simp only [survivors, List.mem_filter, List.mem_filterMap, id] at hmem
  obtain ⟨⟨o, ho, hobad⟩, _⟩ := hmem
  obtain ⟨c, hc⟩ := hres o ho bad hobad
  exact hfresh c hc.symm

/-- When the working stack already fits in one batch, `mergeLoop`
performs exactly the final combine, whatever fuel remains. -/
theorem mergeLoop_small (crun : CombineInv → Bool) (sizeOf : String → Nat)
    (tmp hexec out : String) (n : Nat) :
    ∀ fuel stack cnt, ¬(stack.length > n) →
      mergeLoop crun sizeOf tmp hexec out n fuel stack cnt =
        (some (mergeStatisticsStep crun stack out hexec).1,
         [(mergeStatisticsStep crun stack out hexec).2]) := by
  intro fuel
  cases fuel <;> intro stack cnt h <;> simp [mergeLoop, h]

/-- Invariant of the hierarchical loop: a path outside the working
stack and distinct from every temporary name never appears among the
inputs of any combine invocation, at any level. -/
theorem mergeLoop_avoids (crun : CombineInv → Bool) (sizeOf : String → Nat)
    (tmp hexec out : String) (n : Nat) (bad : String)
    (hfresh : ∀ c, tmpName tmp c ≠ bad) :
    ∀ fuel stack cnt, bad ∉ stack →
      ∀ inv ∈ (mergeLoop crun sizeOf tmp hexec out n fuel stack cnt).2,
        bad ∉ inv.inputs := by
  intro fuel
  induction fuel with
  | zero =>
    intro stack cnt hstack inv hinv
    simp only [mergeLoop] at hinv
    split at hinv
    · simp at hinv
    · simp only [List.mem_singleton] at hinv
      subst hinv
      simpa [mergeStatisticsStep] using hstack
  | succ f ih =>
    intro stack cnt hstack inv hinv
    simp only [mergeLoop] at hinv
    split at hinv
    · rcases List.mem_append.mp hinv with hl | hr
      · intro hmem
        exact hstack (runBatches_inputs_subset crun stack tmp hexec _ cnt inv hl hmem)
      · exact ih _ _
          (bad_not_in_survivors sizeOf tmp bad hfresh _
            (runBatches_results_tmp crun stack tmp hexec _ cnt))
          inv hr
    · simp only [List.mem_singleton] at hinv
      subst hinv
      simpa [mergeStatisticsStep] using hstack

/-- C5: an artifact reported as epoch-start by the Validator
(`starts_with_zero_timestamp` returns `true`), and distinct from the
fresh temporary names of the merge directory, is never included in the
argument list of any combine invocation of `merge_statistics`, at any
level of the hierarchical reduction. -/
theorem epoch_artifact_never_merged
    (crun : CombineInv → Bool) (sizeOf : String → Nat)
    (readHeader : String → Except String Int)
    (filenames : List (ReportStat × Option String))
    (out hexec tmp : String) (n_samples : Int) (fuel : Nat) (bad : String)
    (hbad : starts_with_zero_timestamp readHeader bad = .ok true)
    (hfresh : ∀ c, tmpName tmp c ≠ bad) :
    invocationsAvoid bad
      (merge_statistics crun sizeOf readHeader filenames out hexec tmp
        n_samples fuel) = true := by
  simp only [merge_statistics]
  cases hf : filterValid readHeader (locationsOf filenames) with
  | error e => simp [invocationsAvoid]
  | ok filtered =>
    dsimp only
    have hnb : bad ∉ filtered :=
      starts_true_not_kept readHeader bad hbad (locationsOf filenames) filtered hf
    by_cases hn : n_samples > 0
    · rw [if_pos hn]
      simp only [invocationsAvoid, List.all_eq_true, decide_eq_true_eq]
      exact mergeLoop_avoids crun sizeOf tmp hexec out n_samples.toNat bad hfresh
        fuel filtered 0 hnb
    · rw [if_neg hn]
      simp only [invocationsAvoid, List.all_eq_true, List.mem_singleton,
        decide_eq_true_eq]
      intro inv hinv
      subst hinv
      simpa [mergeStatisticsStep] using hnb

/-- The temporary names of merge directory `/t` differ from the path
`/bad` (length argument), for the C5 witness. -/
theorem tmpName_slash_t_ne_bad (c : Nat) : tmpName "/t" c ≠ "/bad" := by
  intro h
  have h2 := congrArg String.length h
  simp only [tmpName, String.length_append] at h2
  have e1 : ("/t").length = 2 := rfl
  have e2 : ("/").length = 1 := rfl
  have e3 : (".pb").length = 3 := rfl
  have e4 : ("/bad").length = 4 := rfl
  omega

/-- Witness for C5 at a concrete run containing one valid and one
epoch-start artifact. -/
theorem epoch_artifact_never_merged_witness :
    invocationsAvoid "/bad"
      (merge_statistics (fun _ => true) (fun _ => 1)
        (fun s => if s = "/bad" then .ok 0 else .ok 100000)
        [(⟨0, 0, "", "r"⟩, some "/a.pb"), (⟨0, 0, "", "s"⟩, some "/bad")]
        "/out.pb" "h" "/t" 3 1) = true :=
  epoch_artifact_never_merged (fun _ => true) (fun _ => 1)
    (fun s => if s = "/bad" then .ok 0 else .ok 100000)
    [(⟨0, 0, "", "r"⟩, some "/a.pb"), (⟨0, 0, "", "s"⟩, some "/bad")]
    "/out.pb" "h" "/t" 3 1 "/bad" rfl tmpName_slash_t_ne_bad

/-- A level of the hierarchical merge never enlarges the working stack
beyond the number of per-batch results. -/
theorem survivors_length_le (sizeOf : String → Nat) (results : List (Option String)) :
    (survivors sizeOf results).length ≤ results.length :=
  le_trans (List.length_filter_le _ _) (List.length_filterMap_le id results)

/-- C4: with 7 valid artifacts and `n_samples = 3`, `merge_statistics`
performs exactly 3 first-level combine invocations over the consecutive
batches `[a,b,c]`, `[d,e,f]`, `[g]` (sizes 3,3,1, stable input order,
fresh temporary outputs 0,1,2), then exactly 1 final combine into the
requested output over the surviving intermediates; the index ranges
`slice_max_n 7 3 = [(0,3),(3,6),(6,9)]` partition the list, so every
valid input artifact appears in exactly one first-level batch. -/
theorem hierarchical_merge_seven_three
    (crun : CombineInv → Bool) (sizeOf : String → Nat)
    (readHeader : String → Except String Int)
    (filenames : List (ReportStat × Option String))
    (out hexec tmp : String) (fuel : Nat) (a b c d e f g : String)
    (hval : filterValid readHeader (locationsOf filenames) =
      .ok [a, b, c, d, e, f, g])
    (hfuel : 0 < fuel) :
    merge_statistics crun sizeOf readHeader filenames out hexec tmp 3 fuel =
      .ok (some (mergeStatisticsStep crun
             (survivors sizeOf
               [(mergeStatisticsStep crun [a, b, c] (tmpName tmp 0) hexec).1,
                (mergeStatisticsStep crun [d, e, f] (tmpName tmp 1) hexec).1,
                (mergeStatisticsStep crun [g] (tmpName tmp 2) hexec).1])
             out hexec).1,
           [⟨hexec, [a, b, c], tmpName tmp 0⟩,
            ⟨hexec, [d, e, f], tmpName tmp 1⟩,
            ⟨hexec, [g], tmpName tmp 2⟩,
            ⟨hexec, survivors sizeOf
               [(mergeStatisticsStep crun [a, b, c] (tmpName tmp 0) hexec).1,
                (mergeStatisticsStep crun [d, e, f] (tmpName tmp 1) hexec).1,
                (mergeStatisticsStep crun [g] (tmpName tmp 2) hexec).1], out⟩]) ∧
    survivors sizeOf
        [(mergeStatisticsStep crun [a, b, c] (tmpName tmp 0) hexec).1,
         (mergeStatisticsStep crun [d, e, f] (tmpName tmp 1) hexec).1,
         (mergeStatisticsStep crun [g] (tmpName tmp 2) hexec).1] ⊆
      [tmpName tmp 0, tmpName tmp 1, tmpName tmp 2] ∧
    slice_max_n 7 3 = [(0, 3), (3, 6), (6, 9)] ∧
    [a, b, c] ++ [d, e, f] ++ [g] = [a, b, c, d, e, f, g] := by
  obtain ⟨f', rfl⟩ : ∃ f', fuel = f' + 1 := ⟨fuel - 1, by omega⟩
  refine ⟨?_, ?_, rfl, rfl⟩
  · simp only [merge_statistics, hval]
    rw [if_pos (by norm_num : (3 : Int) > 0)]
    simp only [mergeLoop]
    rw [show ([a, b, c, d, e, f, g] : List String).length = 7 from rfl]
    rw [if_pos (by decide : (7 : Nat) > Int.toNat 3)]
    rw [show slice_max_n 7 (Int.toNat 3) = [(0, 3), (3, 6), (6, 9)] from rfl]
    rw [show runBatches crun [a, b, c, d, e, f, g] tmp hexec
          [(0, 3), (3, 6), (6, 9)] 0 =
        ([(mergeStatisticsStep crun [a, b, c] (tmpName tmp 0) hexec).1,
          (mergeStatisticsStep crun [d, e, f] (tmpName tmp 1) hexec).1,
          (mergeStatisticsStep crun [g] (tmpName tmp 2) hexec).1],
         [(mergeStatisticsStep crun [a, b, c] (tmpName tmp 0) hexec).2,
          (mergeStatisticsStep crun [d, e, f] (tmpName tmp 1) hexec).2,
          (mergeStatisticsStep crun [g] (tmpName tmp 2) hexec).2], 3) from rfl]
    rw [mergeLoop_small]
    · rfl
    · dsimp only
      have hle := survivors_length_le sizeOf
        [(mergeStatisticsStep crun [a, b, c] (tmpName tmp 0) hexec).1,
         (mergeStatisticsStep crun [d, e, f] (tmpName tmp 1) hexec).1,
         (mergeStatisticsStep crun [g] (tmpName tmp 2) hexec).1]
      simp only [List.length_cons, List.length_nil] at hle
      omega
  · intro x hx
    simp only [survivors, List.mem_filter, List.mem_filterMap, id] at hx
    obtain ⟨⟨o, ho, hox⟩, _⟩ := hx
    simp only [List.mem_cons, List.not_mem_nil, or_false] at ho
    rcases ho with h0 | h1 | h2
    · subst h0
      simp only [mergeStatisticsStep] at hox
      split at hox
      · simp [← Option.some.injEq _ _ |>.mp hox]
      · cases hox
    · subst h1
      simp only [mergeStatisticsStep] at hox
      split at hox
      · simp [← Option.some.injEq _ _ |>.mp hox]
      · cases hox
    · subst h2
      simp only [mergeStatisticsStep] at hox
      split at hox
      · simp [← Option.some.injEq _ _ |>.mp hox]
      · cases hox

/-- Witness for C4 at a concrete run of 7 valid artifacts whose
combine subprocesses all succeed. -/
theorem hierarchical_merge_seven_three_witness :
    merge_statistics (fun _ => true) (fun _ => 1) (fun _ => .ok 100000)
        [(⟨0, 0, "", "r1"⟩, some "a"), (⟨0, 0, "", "r2"⟩, some "b"),
         (⟨0, 0, "", "r3"⟩, some "c"), (⟨0, 0, "", "r4"⟩, some "d"),
         (⟨0, 0, "", "r5"⟩, some "e"), (⟨0, 0, "", "r6"⟩, some "f"),
         (⟨0, 0, "", "r7"⟩, some "g")] "/out" "h" "/t" 3 1 =
      .ok (some (some "/out"),
           [⟨"h", ["a", "b", "c"], "/t/0.pb"⟩, ⟨"h", ["d", "e", "f"], "/t/1.pb"⟩,
            ⟨"h", ["g"], "/t/2.pb"⟩,
            ⟨"h", ["/t/0.pb", "/t/1.pb", "/t/2.pb"], "/out"⟩]) ∧
    (["/t/0.pb", "/t/1.pb", "/t/2.pb"] : List String) ⊆
      ["/t/0.pb", "/t/1.pb", "/t/2.pb"] ∧
    slice_max_n 7 3 = [(0, 3), (3, 6), (6, 9)] ∧
    (["a", "b", "c"] ++ ["d", "e", "f"] ++ ["g"] : List String) =
      ["a", "b", "c", "d", "e", "f", "g"] :=
  hierarchical_merge_seven_three (fun _ => true) (fun _ => 1)
    (fun _ => .ok 100000)
    [(⟨0, 0, "", "r1"⟩, some "a"), (⟨0, 0, "", "r2"⟩, some "b"),
     (⟨0, 0, "", "r3"⟩, some "c"), (⟨0, 0, "", "r4"⟩, some "d"),
     (⟨0, 0, "", "r5"⟩, some "e"), (⟨0, 0, "", "r6"⟩, some "f"),
     (⟨0, 0, "", "r7"⟩, some "g")] "/out" "h" "/t" 1 "a" "b" "c" "d" "e" "f" "g"
    rfl (by decide)

end OrgAnalysis
